import Mathlib

/-!
# CropView — verification of the band-normalization and index-computation core

Shallow embedding of `src/python_processing/image_processor.py` and
`src/python_processing/multispectral_loader.py`. Pixel values are modelled as
rationals (`ℚ`); numpy arrays become total functions `Nat → Nat → ℚ` together
with explicit dimensions. `np.std` is irrational in general, so result records
carry the variance (the square of the reported standard deviation) instead.
-/

namespace CropView

/-- A raw 3-D pixel array (channels-last interpretation: `pix y x c`).
Values outside the declared bounds are junk, exactly as out-of-range numpy
indexing is never exercised by the modelled code paths. -/
structure Img where
  H : Nat
  W : Nat
  C : Nat
  pix : Nat → Nat → Nat → ℚ

/-- `np.clip(q, lo, hi)`. -/
def clip (q lo hi : ℚ) : ℚ := min (max q lo) hi

/-- Round-half-to-even on rationals, mirroring Python's `round` on the values
the claims exercise (none of which sit on representation-dependent ties). -/
def roundHalfEven (q : ℚ) : Int :=
  let f : Int := Int.floor q
  let r : ℚ := q - f
  if r < 1/2 then f
  else if r > 1/2 then f + 1
  else if f % 2 = 0 then f else f + 1

/-- Python's `round(q, k)`. -/
def roundTo (k : Nat) (q : ℚ) : ℚ :=
  (roundHalfEven (q * (10:ℚ)^k) : ℚ) / (10:ℚ)^k

/-- Row-major flattening of a 2-D map, as numpy statistics see it. -/
def pixList (H W : Nat) (f : Nat → Nat → ℚ) : List ℚ :=
  (List.range H).flatMap fun y => (List.range W).map fun x => f y x

/-- `np.mean` (division by zero yields 0 in `ℚ`, a case the modelled code
never reaches on the claimed inputs). -/
def meanQ (l : List ℚ) : ℚ := l.sum / l.length

/-- `np.min` of a nonempty list (0 on the empty list). -/
def listMin : List ℚ → ℚ
  | [] => 0
  | a :: t => t.foldl min a

/-- `np.max` of a nonempty list (0 on the empty list). -/
def listMax : List ℚ → ℚ
  | [] => 0
  | a :: t => t.foldl max a

/-- `np.var`, i.e. the square of `np.std`. -/
def varQ (l : List ℚ) : ℚ := meanQ (l.map fun v => (v - meanQ l)^2)

/-! ## Index pixel formulas (`image_processor.py`) -/

/-- The epsilon guard `1e-7` used by every index denominator. -/
def eps : ℚ := 1 / 10000000

/-- `nir_approx = clip(2*green - red, 0, 255)` (lines 43-44). -/
def nirApprox (r g : ℚ) : ℚ := clip (2 * g - r) 0 255

/-- Per-pixel clipped NDVI (lines 47-51). -/
def ndviPix (r g : ℚ) : ℚ :=
  let n := nirApprox r g
  clip ((n - r) / (r + n + eps)) (-1) 1

/-- Per-pixel clipped GNDVI (lines 160-168). -/
def gndviPix (r g : ℚ) : ℚ :=
  let n := nirApprox r g
  clip ((n - g) / (g + n + eps)) (-1) 1

/-- Per-pixel clipped SAVI with soil factor `L` (lines 217-226). -/
def saviPix (L r g : ℚ) : ℚ :=
  let n := nirApprox r g
  clip (((n - r) / (r + n + L + eps)) * (1 + L)) (-1) 1

/-- The clipped NDVI map of an RGB image (channel 0 = R, channel 1 = G). -/
def ndviMap (img : Img) : Nat → Nat → ℚ :=
  fun y x => ndviPix (img.pix y x 0) (img.pix y x 1)

/-- The clipped GNDVI map of an RGB image. -/
def gndviMap (img : Img) : Nat → Nat → ℚ :=
  fun y x => gndviPix (img.pix y x 0) (img.pix y x 1)

/-- The clipped SAVI map of an RGB image. -/
def saviMap (L : ℚ) (img : Img) : Nat → Nat → ℚ :=
  fun y x => saviPix L (img.pix y x 0) (img.pix y x 1)

/-! ## Stress-zone grid (`calculate_ndvi`, lines 84-107) -/

/-- One emitted stress-zone record. -/
structure StressZone where
  x : Nat
  y : Nat
  severity : ℚ
  ndvi : ℚ
deriving DecidableEq, Repr

/-- Mean of the cell `[y*cellH, (y+1)*cellH) × [x*cellW, (x+1)*cellW)`
(line 95-96: `np.mean(ndvi[y_start:y_end, x_start:x_end])`). -/
def cellMean (f : Nat → Nat → ℚ) (cellH cellW y x : Nat) : ℚ :=
  (((List.range cellH).flatMap fun i =>
      (List.range cellW).map fun j => f (y * cellH + i) (x * cellW + j)).sum)
    / (cellH * cellW)

/-- The double loop of lines 90-107: row-major over a 10×10 grid with
`cell_h = h // 10`, `cell_w = w // 10`, emitting a record when
`1 - clip((cell_mean+1)/2, 0, 1) > 0.3`. -/
def stressZonesCode (f : Nat → Nat → ℚ) (H W : Nat) : List StressZone :=
  let cellH := H / 10
  let cellW := W / 10
  (List.range 10).flatMap fun y =>
    (List.range 10).filterMap fun x =>
      let m := cellMean f cellH cellW y x
      let sev := 1 - clip ((m + 1) / 2) 0 1
      if sev > 3/10 then some ⟨x, y, roundTo 2 sev, roundTo 3 m⟩ else none

/-! ## Health classification (lines 63-77) -/

/-- Five-bucket thresholding on the (unrounded) mean NDVI. -/
def healthStatus (m : ℚ) : String :=
  if m < 1/5 then "Very Poor"
  else if m < 2/5 then "Poor"
  else if m < 3/5 then "Moderate"
  else if m < 4/5 then "Healthy"
  else "Very Healthy"

/-- The canned summary attached to each bucket in `calculate_ndvi`. -/
def healthSummary (m : ℚ) : String :=
  if m < 1/5 then
    "Critical attention needed - Onion crop severely stressed, brown/yellow foliage, sparse canopy"
  else if m < 2/5 then
    "Attention needed - Onion crop showing stress, yellowing foliage, reduced canopy coverage"
  else if m < 3/5 then
    "Moderate health - Onion crop with light green foliage, some stress indicators present"
  else if m < 4/5 then
    "Healthy - Onion crop with green foliage, good canopy coverage, normal growing conditions"
  else
    "Very healthy - Onion crop with dark green vigorous foliage, optimal growing conditions"

/-! ## Result records for the three index calculators -/

/-- Return value of `calculate_ndvi` (the fields of the dict at lines 117-127;
`ndvi_var` stands for the square of the reported `ndvi_std`). -/
structure NdviResult where
  ndvi_mean : ℚ
  ndvi_var : ℚ
  ndvi_min : ℚ
  ndvi_max : ℚ
  health_status : String
  summary : String
  stress_zones : List StressZone
  ndvi_map_shape : List Nat
  stress_count : Nat
deriving DecidableEq, Repr

/-- `calculate_ndvi`: statistics on the clipped `[-1,1]` NDVI values,
health buckets from the unrounded mean, stress zones from the 10×10 grid. -/
def calculate_ndvi (img : Img) : NdviResult :=
  let vals := pixList img.H img.W (ndviMap img)
  let m := meanQ vals
  let zones := stressZonesCode (ndviMap img) img.H img.W
  { ndvi_mean := roundTo 3 m
    ndvi_var := varQ vals
    ndvi_min := roundTo 3 (listMin vals)
    ndvi_max := roundTo 3 (listMax vals)
    health_status := healthStatus m
    summary := healthSummary m
    stress_zones := zones
    ndvi_map_shape := [img.H, img.W]
    stress_count := zones.length }

/-- Return value of `calculate_gndvi` (lines 177-183); statistics are taken
on the clipped array `gndvi`, the map field on the normalized one. -/
structure GndviResult where
  gndvi_mean : ℚ
  gndvi_var : ℚ
  gndvi_min : ℚ
  gndvi_max : ℚ
  gndvi_map : List ℚ
deriving DecidableEq, Repr

def calculate_gndvi (img : Img) : GndviResult :=
  let vals := pixList img.H img.W (gndviMap img)
  { gndvi_mean := roundTo 3 (meanQ vals)
    gndvi_var := varQ vals
    gndvi_min := roundTo 3 (listMin vals)
    gndvi_max := roundTo 3 (listMax vals)
    gndvi_map := vals.map fun v => (v + 1) / 2 }

/-- Return value of `calculate_savi` (lines 235-241); statistics are taken
on the normalized array `savi_normalized`. -/
structure SaviResult where
  savi_mean : ℚ
  savi_var : ℚ
  savi_min : ℚ
  savi_max : ℚ
  savi_map : List ℚ
deriving DecidableEq, Repr

def calculate_savi (L : ℚ) (img : Img) : SaviResult :=
  let normVals := (pixList img.H img.W (saviMap L img)).map fun v => (v + 1) / 2
  { savi_mean := roundTo 3 (meanQ normVals)
    savi_var := varQ normVals
    savi_min := roundTo 3 (listMin normVals)
    savi_max := roundTo 3 (listMax normVals)
    savi_map := normVals }

/-! ## Multispectral loader (`multispectral_loader.py`) -/

/-- `STANDARD_MULTISPECTRAL_BANDS = ["R", "G", "B", "NIR"]`. -/
def STANDARD_MULTISPECTRAL_BANDS : List String := ["R", "G", "B", "NIR"]

/-- `STANDARD_RGB_BANDS = ["R", "G", "B"]`. -/
def STANDARD_RGB_BANDS : List String := ["R", "G", "B"]

/-- Python's `list.index`, partial-safe: first index of `b` in `l`. -/
def idxOf? (l : List String) (b : String) : Option Nat :=
  match l with
  | [] => none
  | x :: xs => if x = b then some 0 else (idxOf? xs b).map (· + 1)

/-- The band schema dictionary assembled by `load_multispectral_image`.
Optional dict keys (`processing_path`, `fallback_reason`) are `Option`s;
`source_band_indices` is the dict as an association list in insertion order. -/
structure BandSchema where
  bands : List String
  band_count : Nat
  band_order : List String
  domain : String
  source_band_order : List String
  source_band_indices : List (String × Option Nat)
  missing_bands : List String
  dropped_bands : List String
  processing_path : Option String
  fallback_reason : Option String
deriving DecidableEq, Repr

/-- `_reorder_bands_to_standard` (lines 194-234): copy each target band's
source channel by index, zero-fill absent bands, record the index mapping
and the missing-band list in target order. -/
def reorder_bands_to_standard (img : Img) (source target : List String) :
    Img × List (String × Option Nat) × List String :=
  let indices := target.map fun b => (b, idxOf? source b)
  let missing := target.filter fun b => (idxOf? source b).isNone
  let img' : Img :=
    { H := img.H, W := img.W, C := target.length
      pix := fun y x c =>
        match target.get? c with
        | some b =>
          match idxOf? source b with
          | some i => img.pix y x i
          | none => 0
        | none => 0 }
  (img', indices, missing)

/-- `validate_band_schema` (lines 237-267), as a function of the schema's
`band_order` (the only field the Python body reads). -/
def validate_band_schema (band_order : List String) : Bool × String :=
  if band_order = [] then (false, "Empty band_order in schema")
  else
    let invalid := band_order.filter fun b =>
      ! decide (b ∈ STANDARD_MULTISPECTRAL_BANDS ++ STANDARD_RGB_BANDS)
    if invalid ≠ [] then
      (false, "Invalid band names: " ++ String.intercalate ", " invalid)
    else
      let has_rgb := STANDARD_RGB_BANDS.any fun b => decide (b ∈ band_order)
      let has_nir := decide ("NIR" ∈ band_order)
      if !has_rgb && !has_nir then (false, "Schema has no mappable bands")
      else (true, "")

/-- File-based `_detect_band_count` (lines 152-164, tifffile branch, 3-D
array): channels-first heuristic, else channels-last capped at 10. -/
def detect_band_count (img : Img) : Nat :=
  if img.H < img.C then img.H
  else if img.C ≤ 10 then img.C
  else 3

/-- The placeholder source order `[f'Band_{i}' for i in range(band_count)]`
recorded when the true source order is unknown (line 134). -/
def bandSrc (n : Nat) : List String :=
  (List.range n).map fun i => "Band_" ++ toString i

/-- `detect_band_schema` (lines 113-144) on the no-dataset path: the initial
schema dict built from the detected band count. -/
def detect_band_schema (band_count : Nat) : BandSchema :=
  if band_count = 3 then
    ⟨STANDARD_RGB_BANDS, 3, STANDARD_RGB_BANDS, "unknown", STANDARD_RGB_BANDS,
      [], [], [], none, none⟩
  else if 4 ≤ band_count then
    ⟨STANDARD_MULTISPECTRAL_BANDS, 4, STANDARD_MULTISPECTRAL_BANDS, "uav",
      bandSrc band_count, [], [], [], none, none⟩
  else
    ⟨STANDARD_RGB_BANDS, 3, STANDARD_RGB_BANDS, "unknown", STANDARD_RGB_BANDS,
      [], [], [], none, none⟩

/-- The initial schema of `load_multispectral_image` (lines 296-307): the
explicitly declared band order when given, file detection otherwise. -/
def schemaInit (declared : Option (List String)) (img0 : Img) : BandSchema :=
  match declared with
  | some bo => ⟨bo, bo.length, bo, "unknown", bo, [], [], [], none, none⟩
  | none => detect_band_schema (detect_band_count img0)

/-- Lines 323-328: on validation failure force the RGB fallback. -/
def fallbackSchema (s : BandSchema) (msg : String) : BandSchema :=
  { s with band_order := STANDARD_RGB_BANDS, band_count := 3
           missing_bands := ["NIR"], fallback_reason := some msg
           processing_path := some "rgb_fallback" }

/-- Lines 330-370: the multispectral / require-NIR / RGB-only path decision.
`source` is the local `source_band_order` read at line 342. -/
def pathSchema (s : BandSchema) (source : List String) (require_nir has_nir : Bool) :
    BandSchema :=
  if has_nir then
    let dropped := source.filter fun b => ! decide (b ∈ STANDARD_MULTISPECTRAL_BANDS)
    { s with band_order := STANDARD_MULTISPECTRAL_BANDS, band_count := 4
             missing_bands := STANDARD_MULTISPECTRAL_BANDS.filter fun b =>
               ! decide (b ∈ source)
             dropped_bands := if dropped ≠ [] then dropped else s.dropped_bands
             processing_path := some "multispectral" }
  else if require_nir then
    { s with band_order := STANDARD_RGB_BANDS, band_count := 3
             missing_bands := ["NIR"], processing_path := some "rgb_fallback"
             fallback_reason := some "NIR required but not available" }
  else
    { s with band_order := STANDARD_RGB_BANDS, band_count := 3
             missing_bands := ["NIR"], processing_path := some "rgb" }

/-- Lines 383-387: transpose a likely channels-first tiff array. -/
def tiffToChannelsLast (img : Img) : Img :=
  if img.H < img.C ∧ img.H ≤ 10 then
    ⟨img.W, img.C, img.H, fun y x c => img.pix c y x⟩
  else img

/-- Lines 389-391: drop trailing channels beyond the schema's band count. -/
def limitChannels (img : Img) (n : Nat) : Img :=
  if n < img.C then { img with C := n } else img

/-- `cv2.resize(..., INTER_LINEAR)` of one band: bilinear sampling at
half-pixel-aligned source coordinates with border replication. -/
def resizeBandLinear (f : Nat → Nat → ℚ) (srcH srcW dstH dstW : Nat)
    (y x : Nat) : ℚ :=
  let fy : ℚ := ((y : ℚ) + 1/2) * srcH / dstH - 1/2
  let fx : ℚ := ((x : ℚ) + 1/2) * srcW / dstW - 1/2
  let y0 : Int := Int.floor fy
  let x0 : Int := Int.floor fx
  let dy : ℚ := fy - y0
  let dx : ℚ := fx - x0
  let cl : Int → Nat → Nat := fun i n => (max 0 (min i ((n : Int) - 1))).toNat
  let v : Int → Int → ℚ := fun yy xx => f (cl yy srcH) (cl xx srcW)
  (1 - dy) * (1 - dx) * v y0 x0 + (1 - dy) * dx * v y0 (x0 + 1)
    + dy * (1 - dx) * v (y0 + 1) x0 + dy * dx * v (y0 + 1) (x0 + 1)

/-- Lines 401-406: per-band linear resize to the target spatial size
(the code passes `target_size` straight to `cv2.resize`). -/
def resizeImg (img : Img) (ts : Nat × Nat) : Img :=
  ⟨ts.1, ts.2, img.C,
    fun y x c => resizeBandLinear (fun i j => img.pix i j c) img.H img.W ts.1 ts.2 y x⟩

/-- Pixel depth of the loaded file, selecting the normalization constant. -/
inductive Dtype | u8 | u16 | other
deriving DecidableEq, Repr

/-- `np.max` over the whole array. -/
def imgMaxQ (img : Img) : ℚ :=
  listMax ((List.range img.H).flatMap fun y =>
    (List.range img.W).flatMap fun x =>
      (List.range img.C).map fun c => img.pix y x c)

/-- Lines 409-417: dtype-driven normalization to `[0,1]`. -/
def normalizeImg (img : Img) (d : Dtype) : Img :=
  match d with
  | .u8 => { img with pix := fun y x c => img.pix y x c / 255 }
  | .u16 => { img with pix := fun y x c => img.pix y x c / 65535 }
  | .other =>
    let m := imgMaxQ img
    if m > 0 then { img with pix := fun y x c => img.pix y x c / m } else img

/-- Lines 493-507: zero-pad to the standard channel count, or truncate an
over-long channel axis. -/
def padOrLimit (img : Img) (has_nir : Bool) (band_count : Nat) : Img :=
  if has_nir ∧ img.C < 4 then
    ⟨img.H, img.W, 4, fun y x c => if c < img.C then img.pix y x c else 0⟩
  else if ¬has_nir ∧ img.C < 3 then
    ⟨img.H, img.W, 3, fun y x c => if c < img.C then img.pix y x c else 0⟩
  else if band_count < img.C then { img with C := band_count }
  else img

/-- Lines 509-522: final provenance assembly (`source_band_indices`,
final `band_order`/`band_count`, defaulted `processing_path`). -/
def finalizeSchema (s : BandSchema) (indices : List (String × Option Nat))
    (target : List String) (c : Nat) (has_nir : Bool) : BandSchema :=
  let s1 := { s with source_band_indices := indices, band_order := target,
                     band_count := c }
  { s1 with processing_path :=
      match s1.processing_path with
      | none => some (if has_nir then "multispectral" else "rgb")
      | p => p }

/-- Lines 372-522 of `load_multispectral_image`, once the path decision has
produced `schema2`: channel truncation, band reordering with zero-fill,
resize, dtype normalization, channel padding, final schema assembly. -/
def loadCore (img0 : Img) (dtype : Dtype) (ts : Nat × Nat) (source : List String)
    (schema2 : BandSchema) (has_nir : Bool) : Img × BandSchema :=
  let target := schema2.band_order
  let imgB := limitChannels (tiffToChannelsLast img0) schema2.band_count
  let ro := if source ≠ target then some (reorder_bands_to_standard imgB source target)
            else none
  let imgC := match ro with | some r => r.1 | none => imgB
  let indices := match ro with | some r => r.2.1 | none => []
  let schema3 := match ro with
    | some r => { schema2 with missing_bands := r.2.2 }
    | none => schema2
  let imgD := if (imgC.H, imgC.W) ≠ ts then resizeImg imgC ts else imgC
  let imgE := normalizeImg imgD dtype
  let imgF := padOrLimit imgE has_nir schema3.band_count
  (imgF, finalizeSchema schema3 indices target imgF.C has_nir)

/-- Lines 296-370 of `load_multispectral_image`: initial schema, validation
with RGB fallback, path decision. Returns the local `source_band_order`,
the decided schema, and the `has_nir` flag. -/
def resolveSchema (declared : Option (List String)) (img0 : Img)
    (require_nir : Bool) : List String × BandSchema × Bool :=
  let schema0 := schemaInit declared img0
  let source := schema0.source_band_order
  let v := validate_band_schema schema0.band_order
  let schema1 := if v.1 then schema0 else fallbackSchema schema0 v.2
  let has_nir := decide ("NIR" ∈ schema1.band_order)
  (source, pathSchema schema1 source require_nir has_nir, has_nir)

/-- `load_multispectral_image` (lines 270-529) along the tifffile-success
route: schema resolution (explicit declaration or file detection),
validation with RGB fallback, path decision, then `loadCore`. The
rasterio/OpenCV fallback loaders are unreachable on this route and are not
modelled. -/
def load_multispectral_image (img0 : Img) (dtype : Dtype) (ts : Nat × Nat)
    (declared : Option (List String)) (require_nir : Bool) : Img × BandSchema :=
  let r := resolveSchema declared img0 require_nir
  loadCore img0 dtype ts r.1 r.2.1 r.2.2

/-! ## Band masks (lines 532-591) -/

/-- `create_band_mask`: the returned dict as an association list in
`required_bands` order (duplicate keys carry identical values, so first
match agrees with Python's last-write dict semantics). -/
def create_band_mask (schema : BandSchema) (required_bands : List String) :
    List (String × ℚ) :=
  required_bands.map fun band =>
    (band,
      if band ∈ schema.band_order then (1:ℚ)
      else if band ∈ schema.missing_bands then 0
      else if band ∈ schema.band_order then 1 else 0)

/-- Dict lookup `mask_dict[band]` (0 default is never hit by the claims). -/
def maskGet (d : List (String × ℚ)) (k : String) : ℚ :=
  (d.lookup k).getD 0

/-- `create_band_mask_array`: the mask values in `required_bands` order. -/
def create_band_mask_array (schema : BandSchema) (required_bands : List String) :
    List ℚ :=
  let mask_dict := create_band_mask schema required_bands
  required_bands.map fun band => maskGet mask_dict band

/-! ## Analysis orchestrator (`analyze_crop_health`, lines 376-485, and the
worker's index double-check, `background_worker.py` lines 388-410) -/

/-- The flat analysis dict returned by `analyze_crop_health` on the
non-TensorFlow path; index sub-results are `Option`s so that a field block
can be absent, as the spec demands of a partial result. -/
structure CropAnalysis where
  ndvi : NdviResult
  savi : Option SaviResult
  gndvi : Option GndviResult
  health_status : String
  health_score : ℚ
  summary : String
deriving DecidableEq, Repr

/-- The short fallback summaries of lines 449-463. -/
def fallbackSummary (m : ℚ) : String :=
  if m < 1/5 then "Critical attention needed"
  else if m < 2/5 then "Attention needed"
  else if m < 3/5 then "Moderate health"
  else if m < 4/5 then "Healthy"
  else "Very healthy"

/-- `analyze_crop_health` with `use_tensorflow=False`: preprocess, then NDVI,
SAVI, GNDVI in sequence. Each step's outcome is a parameter because it
depends on file I/O; an exception anywhere propagates (there is no
try/except in the Python body), which `Except.bind` mirrors. The health
fields come from the rounded `ndvi_mean` (line 448) and the health score is
`min(1, max(0, (mean + 0.2) / 1.0))` (line 466). -/
def analyze_crop_health (preprocess : Except String Img)
    (ndviOf : Img → Except String NdviResult)
    (saviOf : Img → Except String SaviResult)
    (gndviOf : Img → Except String GndviResult) : Except String CropAnalysis :=
  match preprocess with
  | .error e => .error e
  | .ok p =>
    match ndviOf p with
    | .error e => .error e
    | .ok n =>
      match saviOf p with
      | .error e => .error e
      | .ok s =>
        match gndviOf p with
        | .error e => .error e
        | .ok g =>
          let m := n.ndvi_mean
          .ok { ndvi := n, savi := some s, gndvi := some g
                health_status := healthStatus m
                health_score := min 1 (max 0 ((m + 1/5) / 1))
                summary := fallbackSummary m }

/-- `background_worker.process_image` lines 388-399: if the analysis result
lacks the SAVI fields, recompute them; a recomputation failure is logged and
the result is kept as-is. -/
def ensure_savi (a : CropAnalysis) (recompute : Except String SaviResult) :
    CropAnalysis :=
  match a.savi with
  | some _ => a
  | none =>
    match recompute with
    | .ok s => { a with savi := some s }
    | .error _ => a

/-- `background_worker.process_image` lines 400-410: same for GNDVI. -/
def ensure_gndvi (a : CropAnalysis) (recompute : Except String GndviResult) :
    CropAnalysis :=
  match a.gndvi with
  | some _ => a
  | none =>
    match recompute with
    | .ok g => { a with gndvi := some g }
    | .error _ => a

/-! ## Supporting lemmas -/

theorem idxOf?_eq_none_iff {l : List String} {b : String} :
    idxOf? l b = none ↔ b ∉ l := by
  induction l with
  | nil => simp [idxOf?]
  | cons x xs ih =>
    by_cases hx : x = b
    · subst hx
      simp [idxOf?]
    · rw [List.mem_cons]
      simp only [idxOf?, if_neg hx, Option.map_eq_none', ih]
      constructor
      · rintro h (rfl | hmem)
        · exact hx rfl
        · exact h hmem
      · intro h hmem
        exact h (Or.inr hmem)

theorem mem_pixList {H W : Nat} {f : Nat → Nat → ℚ} {v : ℚ} :
    v ∈ pixList H W f ↔ ∃ y < H, ∃ x < W, v = f y x := by
  simp only [pixList, List.mem_flatMap, List.mem_map, List.mem_range]
  constructor
  · rintro ⟨y, hy, x, hx, rfl⟩
    exact ⟨y, hy, x, hx, rfl⟩
  · rintro ⟨y, hy, x, hx, rfl⟩
    exact ⟨y, hy, x, hx, rfl⟩

theorem pixList_length (H W : Nat) (f : Nat → Nat → ℚ) :
    (pixList H W f).length = H * W := by
  simp only [pixList, List.length_flatMap, Function.comp_def, List.length_map,
    List.length_range]
  rw [List.map_const', List.sum_replicate, List.length_range, smul_eq_mul,
    Nat.mul_comm]

theorem pixList_sum_zero {H W : Nat} {f : Nat → Nat → ℚ}
    (h : ∀ y x, f y x = 0) : (pixList H W f).sum = 0 := by
  apply List.sum_eq_zero
  intro v hv
  obtain ⟨y, _, x, _, rfl⟩ := mem_pixList.mp hv
  exact h y x

theorem filterMap_ite_eq_filter_map {α β : Type} (p : α → Prop) [DecidablePred p]
    (g : α → β) (l : List α) :
    (l.filterMap fun x => if p x then some (g x) else none) =
      (l.filter fun x => decide (p x)).map g := by
  induction l with
  | nil => rfl
  | cons a t ih =>
    by_cases hp : p a
    · simp [List.filterMap_cons, List.filter_cons, hp, ih]
    · simp [List.filterMap_cons, List.filter_cons, hp, ih]

theorem lookup_map_self {l : List String} {b : String} (f : String → Option Nat)
    (hb : b ∈ l) : List.lookup b (l.map fun t => (t, f t)) = some (f b) := by
  induction l with
  | nil => cases hb
  | cons x xs ih =>
    rcases List.mem_cons.mp hb with rfl | hmem
    · simp [List.lookup]
    · by_cases hx : b = x
      · subst hx
        simp [List.lookup]
      · have hbx : (b == x) = false := beq_eq_false_iff_ne.mpr hx
        simp only [List.map_cons, List.lookup, hbx]
        exact ih hmem

theorem band_underscore_ne (i : Nat) (b : String) (hb : b.length ≤ 3) :
    "Band_" ++ toString i ≠ b := by
  intro h
  have hl := congrArg String.length h
  rw [String.length_append] at hl
  have h5 : ("Band_").length = 5 := rfl
  omega

theorem not_mem_bandNames {b : String} (hb : b.length ≤ 3) (n : Nat) :
    b ∉ bandSrc n := by
  intro hmem
  unfold bandSrc at hmem
  obtain ⟨i, _, hi⟩ := List.mem_map.mp hmem
  exact band_underscore_ne i b hb hi

theorem clip_nonneg (q hi : ℚ) (h : 0 ≤ hi) : 0 ≤ clip q 0 hi := by
  unfold clip
  exact le_min (le_max_right q 0) h

theorem clip_le (q lo hi : ℚ) : clip q lo hi ≤ hi := min_le_right _ _

theorem floor_le_roundHalfEven (q : ℚ) : ⌊q⌋ ≤ roundHalfEven q := by
  simp only [roundHalfEven]
  split
  · exact le_refl _
  · split
    · omega
    · split <;> omega

theorem roundHalfEven_le_of_le {q : ℚ} {n : Int} (h : q ≤ (n : ℚ)) :
    roundHalfEven q ≤ n := by
  have hfl : ⌊q⌋ ≤ n := by
    have h2 := Int.floor_le_floor h
    simpa using h2
  simp only [roundHalfEven]
  split
  · exact hfl
  · rename_i hr
    push_neg at hr
    have hne : ⌊q⌋ ≠ n := by
      intro he
      rw [← he] at h
      have hle : q - (⌊q⌋ : ℚ) ≤ 0 := by
        have := Int.floor_le q
        linarith
      linarith
    have hlt : ⌊q⌋ + 1 ≤ n := by omega
    split
    · omega
    · split <;> omega

theorem roundHalfEven_ge_of_lt {q : ℚ} {n : Int} (h : (n : ℚ) ≤ q) :
    n ≤ roundHalfEven q := by
  have : n ≤ ⌊q⌋ := Int.le_floor.mpr h
  exact this.trans (floor_le_roundHalfEven q)

theorem resizeBandLinear_zero {f : Nat → Nat → ℚ} (h : ∀ i j, f i j = 0)
    (srcH srcW dstH dstW y x : Nat) :
    resizeBandLinear f srcH srcW dstH dstW y x = 0 := by
  unfold resizeBandLinear
  simp only [h]
  ring

/-! ## Spec-side definitions (written from the specification's wording, for
refinement comparisons with the code-side definitions above) -/

/-- Spec: the mean NDVI of grid cell `(x, y)` when the map is partitioned
into a fixed 10×10 grid of cells of size `⌊H/10⌋ × ⌊W/10⌋`; remainder
pixels at the bottom/right edge belong to no cell. -/
def specCellMean (f : Nat → Nat → ℚ) (H W y x : Nat) : ℚ :=
  meanQ (pixList (H / 10) (W / 10) fun i j =>
    f (y * (H / 10) + i) (x * (W / 10) + j))

/-- Spec: cell severity `1 − clip((mean+1)/2, 0, 1)`. -/
def specSeverity (f : Nat → Nat → ℚ) (H W y x : Nat) : ℚ :=
  1 - clip ((specCellMean f H W y x + 1) / 2) 0 1

/-- Spec: the emitted stress zones — row-major (y outer, x inner) over the
fixed 10×10 grid, exactly the cells whose severity exceeds 0.3. -/
def stressZonesSpec (f : Nat → Nat → ℚ) (H W : Nat) : List StressZone :=
  (List.range 10).flatMap fun y =>
    ((List.range 10).filter fun x => decide (specSeverity f H W y x > 3/10)).map
      fun x => ⟨x, y, roundTo 2 (specSeverity f H W y x),
                roundTo 3 (specCellMean f H W y x)⟩

/-- Spec: NDVI statistics are taken on the clipped `[-1,1]` values. -/
def specNdviStatValues (img : Img) : List ℚ := pixList img.H img.W (ndviMap img)

/-- Spec: SAVI statistics are taken on the normalized `[0,1]` values
`(v+1)/2` of the clipped index. -/
def specSaviStatValues (L : ℚ) (img : Img) : List ℚ :=
  (pixList img.H img.W (saviMap L img)).map fun v => (v + 1) / 2

/-- Spec: the claim's reading for GNDVI — statistics on the normalized
`[0,1]` values. -/
def specGndviNormValues (img : Img) : List ℚ :=
  (pixList img.H img.W (gndviMap img)).map fun v => (v + 1) / 2

/-- The clipped `[-1,1]` GNDVI values, which the code actually uses for
GNDVI statistics. -/
def specGndviClipValues (img : Img) : List ℚ := pixList img.H img.W (gndviMap img)

theorem cellMean_eq_specCellMean (f : Nat → Nat → ℚ) (H W y x : Nat) :
    cellMean f (H / 10) (W / 10) y x = specCellMean f H W y x := by
  unfold cellMean specCellMean meanQ
  rw [pixList_length]
  push_cast
  rfl

theorem stressZonesCode_eq_spec (f : Nat → Nat → ℚ) (H W : Nat) :
    stressZonesCode f H W = stressZonesSpec f H W := by
  simp only [stressZonesCode, stressZonesSpec, specSeverity, cellMean_eq_specCellMean]
  congr 1
  funext y
  exact filterMap_ite_eq_filter_map _ _ _

/-- A uniform flat-colour RGB image. -/
def uniformImg (H W : Nat) (v : ℚ) : Img := ⟨H, W, 3, fun _ _ _ => v⟩

/-! ## Claims -/

/-- C2: for every NDVI map with `H ≥ 10` and `W ≥ 10`, `calculate_ndvi`
partitions the map into a fixed 10×10 grid of `⌊H/10⌋ × ⌊W/10⌋` cells
(remainder pixels excluded from every cell), computes each cell's mean,
assigns severity `1 − clip((mean+1)/2, 0, 1)`, emits a record exactly when
severity > 0.3, and emits in row-major order — i.e. the emitted list equals
the spec-side `stressZonesSpec`. -/
theorem C2_stress_zone_grid (img : Img) (hH : 10 ≤ img.H) (hW : 10 ≤ img.W) :
    (calculate_ndvi img).stress_zones = stressZonesSpec (ndviMap img) img.H img.W := by
  have h : (calculate_ndvi img).stress_zones = stressZonesCode (ndviMap img) img.H img.W := rfl
  rw [h, stressZonesCode_eq_spec]

/-- Witness for C2 at a concrete 10×10 image. -/
theorem C2_stress_zone_grid_witness :
    10 ≤ (uniformImg 10 10 1).H ∧ 10 ≤ (uniformImg 10 10 1).W ∧
      (calculate_ndvi (uniformImg 10 10 1)).stress_zones =
        stressZonesSpec (ndviMap (uniformImg 10 10 1)) 10 10 :=
  ⟨by decide, by decide,
    C2_stress_zone_grid (uniformImg 10 10 1) (by decide) (by decide)⟩

/-- C3 (amended): NDVI statistics are computed on the clipped `[-1,1]`
values and SAVI statistics on the normalized `[0,1]` values, as claimed;
but GNDVI statistics are computed on the clipped `[-1,1]` values, not the
normalized ones. -/
theorem C3_statistics_arrays (L : ℚ) (img : Img) :
    ((calculate_ndvi img).ndvi_mean = roundTo 3 (meanQ (specNdviStatValues img)) ∧
      (calculate_ndvi img).ndvi_min = roundTo 3 (listMin (specNdviStatValues img)) ∧
      (calculate_ndvi img).ndvi_max = roundTo 3 (listMax (specNdviStatValues img)) ∧
      (calculate_ndvi img).ndvi_var = varQ (specNdviStatValues img)) ∧
    ((calculate_savi L img).savi_mean = roundTo 3 (meanQ (specSaviStatValues L img)) ∧
      (calculate_savi L img).savi_min = roundTo 3 (listMin (specSaviStatValues L img)) ∧
      (calculate_savi L img).savi_max = roundTo 3 (listMax (specSaviStatValues L img)) ∧
      (calculate_savi L img).savi_var = varQ (specSaviStatValues L img)) ∧
    ((calculate_gndvi img).gndvi_mean = roundTo 3 (meanQ (specGndviClipValues img)) ∧
      (calculate_gndvi img).gndvi_min = roundTo 3 (listMin (specGndviClipValues img)) ∧
      (calculate_gndvi img).gndvi_max = roundTo 3 (listMax (specGndviClipValues img)) ∧
      (calculate_gndvi img).gndvi_var = varQ (specGndviClipValues img)) :=
  ⟨⟨rfl, rfl, rfl, rfl⟩, ⟨rfl, rfl, rfl, rfl⟩, ⟨rfl, rfl, rfl, rfl⟩⟩

/-- Counterexample for C3: on the uniform `R=G=B=128` 1×1 image the
reported GNDVI mean is the clipped-array mean 0, while the claim's
normalized-array mean is 0.5. -/
theorem C3_counterexample :
    (calculate_gndvi (uniformImg 1 1 128)).gndvi_mean = 0 ∧
      roundTo 3 (meanQ (specGndviNormValues (uniformImg 1 1 128))) = 1/2 ∧
      (0 : ℚ) ≠ 1/2 := by
  refine ⟨?_, ?_, by norm_num⟩
  · with_unfolding_all decide
  · with_unfolding_all decide

/-- C7 (amended): a uniform flat-colour image with `R=G=B=128` yields mean
NDVI 0 after clipping, and the health bucket is "Very Poor" (mean 0 falls
in the `< 0.2` bucket), not "Moderate". -/
theorem C7_uniform_flat_image (H W : Nat) :
    (calculate_ndvi (uniformImg H W 128)).ndvi_mean = 0 ∧
      (calculate_ndvi (uniformImg H W 128)).health_status = "Very Poor" := by
  have hvals : ∀ y x, ndviMap (uniformImg H W 128) y x = 0 := by
    intro y x
    show ndviPix 128 128 = 0
    with_unfolding_all decide
  have hmean : meanQ (pixList H W (ndviMap (uniformImg H W 128))) = 0 := by
    unfold meanQ
    rw [pixList_sum_zero hvals, zero_div]
  constructor
  · show roundTo 3 (meanQ (pixList H W (ndviMap (uniformImg H W 128)))) = 0
    rw [hmean]
    with_unfolding_all decide
  · show healthStatus (meanQ (pixList H W (ndviMap (uniformImg H W 128)))) = "Very Poor"
    rw [hmean]
    with_unfolding_all decide

set_option maxRecDepth 100000 in
/-- Counterexample for C7: on the uniform 128 image the health bucket is
"Very Poor", not "Moderate" as claimed (the mean-0 half of the claim holds). -/
theorem C7_counterexample :
    (calculate_ndvi (uniformImg 10 10 128)).ndvi_mean = 0 ∧
      (calculate_ndvi (uniformImg 10 10 128)).health_status ≠ "Moderate" := by
  with_unfolding_all decide

/-- C9: `create_band_mask_array` agrees pointwise with `create_band_mask`:
the `i`-th array element equals the dictionary value of the `i`-th required
band name. -/
theorem C9_band_mask_pointwise (schema : BandSchema) (required : List String)
    (i : Nat) (h : i < required.length) :
    (create_band_mask_array schema required).get
        ⟨i, by simpa [create_band_mask_array] using h⟩ =
      maskGet (create_band_mask schema required) (required.get ⟨i, h⟩) := by
  simp [create_band_mask_array, List.get_map]

/-- A sample schema for the C9 witness. -/
def sampleSchema : BandSchema :=
  ⟨STANDARD_RGB_BANDS, 3, STANDARD_RGB_BANDS, "unknown", STANDARD_RGB_BANDS,
    [], ["NIR"], [], some "rgb", none⟩

/-- Witness for C9 at a concrete schema, band list and index. -/
theorem C9_band_mask_pointwise_witness :
    3 < STANDARD_MULTISPECTRAL_BANDS.length ∧
      (create_band_mask_array sampleSchema STANDARD_MULTISPECTRAL_BANDS).get
          ⟨3, by simp [create_band_mask_array, STANDARD_MULTISPECTRAL_BANDS]⟩ =
        maskGet (create_band_mask sampleSchema STANDARD_MULTISPECTRAL_BANDS)
          (STANDARD_MULTISPECTRAL_BANDS.get ⟨3, by decide⟩) := by
  refine ⟨by decide, ?_⟩
  exact C9_band_mask_pointwise sampleSchema STANDARD_MULTISPECTRAL_BANDS 3 (by decide)

/-- Fixed records for the C4 counterexample/witness instantiations. -/
def emptyNdvi : NdviResult := ⟨0, 0, 0, 0, "", "", [], [0, 0], 0⟩

def emptySavi : SaviResult := ⟨0, 0, 0, 0, []⟩

def emptyGndvi : GndviResult := ⟨0, 0, 0, 0, []⟩

def tinyImg : Img := ⟨1, 1, 3, fun _ _ _ => 0⟩

/-- C4 (amended): inside `analyze_crop_health` a SAVI or GNDVI failure
propagates — the whole call fails and no partial result is returned; the
log-and-continue recovery exists only in `background_worker.process_image`'s
double-check step (`ensure_savi`/`ensure_gndvi`), which keeps the analysis
record intact when recomputation fails. -/
theorem C4_savi_gndvi_failure_fatal :
    (∀ (img : Img) (nOf : Img → Except String NdviResult)
        (gOf : Img → Except String GndviResult) (n : NdviResult) (e : String),
        nOf img = .ok n →
        analyze_crop_health (.ok img) nOf (fun _ => .error e) gOf = .error e) ∧
    (∀ (img : Img) (nOf : Img → Except String NdviResult)
        (sOf : Img → Except String SaviResult) (n : NdviResult) (s : SaviResult)
        (e : String),
        nOf img = .ok n → sOf img = .ok s →
        analyze_crop_health (.ok img) nOf sOf (fun _ => .error e) = .error e) ∧
    (∀ (a : CropAnalysis) (e : String), ensure_savi a (.error e) = a) ∧
    (∀ (a : CropAnalysis) (e : String), ensure_gndvi a (.error e) = a) := by
  refine ⟨?_, ?_, ?_, ?_⟩
  · intro img nOf gOf n e hn
    simp [analyze_crop_health, hn]
  · intro img nOf sOf n s e hn hs
    simp [analyze_crop_health, hn, hs]
  · intro a e
    rcases ha : a.savi with _ | s <;> simp [ensure_savi, ha]
  · intro a e
    rcases ha : a.gndvi with _ | g <;> simp [ensure_gndvi, ha]

/-- Counterexample for C4: with preprocessing and NDVI succeeding and SAVI
failing, `analyze_crop_health` returns no result at all — the claim's
"other fields are still produced" is false. -/
theorem C4_counterexample :
    analyze_crop_health (.ok tinyImg) (fun _ => .ok emptyNdvi)
        (fun _ => .error "savi boom") (fun _ => .ok emptyGndvi) =
      .error "savi boom" ∧
    ∀ a : CropAnalysis,
      analyze_crop_health (.ok tinyImg) (fun _ => .ok emptyNdvi)
          (fun _ => .error "savi boom") (fun _ => .ok emptyGndvi) ≠ .ok a := by
  have he : analyze_crop_health (.ok tinyImg) (fun _ => .ok emptyNdvi)
      (fun _ => .error "savi boom") (fun _ => .ok emptyGndvi) =
      (.error "savi boom" : Except String CropAnalysis) := rfl
  refine ⟨he, ?_⟩
  intro a h
  rw [he] at h
  simp at h

/-- Witness for C4 at concrete step outcomes. -/
theorem C4_savi_gndvi_failure_fatal_witness :
    ((fun _ : Img => (Except.ok emptyNdvi : Except String NdviResult)) tinyImg
        = Except.ok emptyNdvi) ∧
      analyze_crop_health (.ok tinyImg) (fun _ => .ok emptyNdvi)
          (fun _ => .error "gndvi fail") (fun _ => .ok emptyGndvi) =
        .error "gndvi fail" := by
  refine ⟨rfl, ?_⟩
  exact C4_savi_gndvi_failure_fatal.1 tinyImg (fun _ => .ok emptyNdvi)
    (fun _ => .ok emptyGndvi) emptyNdvi "gndvi fail" rfl

/-- C10 machinery: bounds for every emitted stress zone. -/
theorem stressZone_mem_bounds {f : Nat → Nat → ℚ} {H W : Nat} {z : StressZone}
    (hz : z ∈ stressZonesCode f H W) :
    z.x ≤ 9 ∧ z.y ≤ 9 ∧
      ∃ s : ℚ, 3/10 < s ∧ s ≤ 1 ∧ z.severity = roundTo 2 s := by
  simp only [stressZonesCode, List.mem_flatMap, List.mem_filterMap,
    List.mem_range] at hz
  obtain ⟨y, hy, x, hx, hif⟩ := hz
  set m := cellMean f (H / 10) (W / 10) y x with hm
  by_cases hs : 1 - clip ((m + 1) / 2) 0 1 > 3/10
  · rw [if_pos hs] at hif
    have hzeq : z = ⟨x, y, roundTo 2 (1 - clip ((m + 1) / 2) 0 1), roundTo 3 m⟩ :=
      (Option.some.injEq _ _).mp hif |>.symm
    subst hzeq
    refine ⟨show x ≤ 9 by omega, show y ≤ 9 by omega,
      1 - clip ((m + 1) / 2) 0 1, hs, ?_, rfl⟩
    have h0 : 0 ≤ clip ((m + 1) / 2) 0 1 := clip_nonneg _ _ (by norm_num)
    linarith
  · rw [if_neg hs] at hif
    cases hif

theorem stressZonesCode_length_le (f : Nat → Nat → ℚ) (H W : Nat) :
    (stressZonesCode f H W).length ≤ 100 := by
  simp only [stressZonesCode, List.length_flatMap]
  have h : ∀ y ∈ List.range 10,
      ((List.range 10).filterMap fun x =>
        let m := cellMean f (H / 10) (W / 10) y x
        let sev := 1 - clip ((m + 1) / 2) 0 1
        if sev > 3/10 then
          some (⟨x, y, roundTo 2 sev, roundTo 3 m⟩ : StressZone)
        else none).length ≤ 10 := by
    intro y _
    calc _ ≤ (List.range 10).length := List.length_filterMap_le _ _
    _ = 10 := List.length_range 10
  calc ((List.range 10).map _).sum
      ≤ ((List.range 10).map fun _ => 10).sum := List.sum_le_sum h
    _ = 100 := by decide

/-- C10 (amended): for every image with both dimensions at least 10, the
stress-zone list has at most 100 entries, every entry has grid coordinates
in 0..9, and every entry's recorded severity is the 2-decimal rounding of
an unrounded severity strictly greater than 0.3 and at most 1 — so the
recorded value lies in [0.3, 1] but may equal 0.3 exactly. -/
theorem C10_stress_zone_invariants (img : Img) (hH : 10 ≤ img.H) (hW : 10 ≤ img.W) :
    (calculate_ndvi img).stress_zones.length ≤ 100 ∧
      ∀ z ∈ (calculate_ndvi img).stress_zones,
        z.x ≤ 9 ∧ z.y ≤ 9 ∧
          3/10 ≤ z.severity ∧ z.severity ≤ 1 ∧
          ∃ s : ℚ, 3/10 < s ∧ s ≤ 1 ∧ z.severity = roundTo 2 s := by
  have hzs : (calculate_ndvi img).stress_zones = stressZonesCode (ndviMap img) img.H img.W := rfl
  rw [hzs]
  refine ⟨stressZonesCode_length_le _ _ _, ?_⟩
  intro z hz
  obtain ⟨hx, hy, s, hs3, hs1, hsev⟩ := stressZone_mem_bounds hz
  refine ⟨hx, hy, ?_, ?_, s, hs3, hs1, hsev⟩
  · rw [hsev]
    unfold roundTo
    have h30 : (30 : Int) ≤ roundHalfEven (s * 10^2) := by
      apply roundHalfEven_ge_of_lt
      push_cast
      linarith
    have hpos : (0:ℚ) < 10^2 := by norm_num
    rw [le_div_iff hpos]
    have h30q : (30:ℚ) ≤ (roundHalfEven (s * 10^2) : ℚ) := by exact_mod_cast h30
    have he : (3:ℚ)/10 * 10^2 = 30 := by norm_num
    rw [he]
    exact h30q
  · rw [hsev]
    unfold roundTo
    have h100 : roundHalfEven (s * 10^2) ≤ (100 : Int) := by
      apply roundHalfEven_le_of_le
      push_cast
      linarith
    have hpos : (0:ℚ) < 10^2 := by norm_num
    rw [div_le_iff hpos]
    have h100q : (roundHalfEven (s * 10^2) : ℚ) ≤ 100 := by exact_mod_cast h100
    have he : (1:ℚ) * 10^2 = 100 := by norm_num
    rw [he]
    exact h100q

/-! ## Loader structure lemmas -/

theorem reorder_pix_zero {img : Img} {source target : List String} {c : Nat}
    {b : String} (hc : target.get? c = some b) (hb : b ∉ source) :
    ∀ y x, (reorder_bands_to_standard img source target).1.pix y x c = 0 := by
  intro y x
  simp only [List.get?_eq_getElem?] at hc
  simp [reorder_bands_to_standard, hc, idxOf?_eq_none_iff.mpr hb]

theorem normalizeImg_pix_zero {img : Img} {c : Nat}
    (h : ∀ y x, img.pix y x c = 0) (d : Dtype) :
    ∀ y x, (normalizeImg img d).pix y x c = 0 := by
  intro y x
  cases d with
  | u8 => simp [normalizeImg, h]
  | u16 => simp [normalizeImg, h]
  | other =>
    simp only [normalizeImg]
    split <;> simp [h]

theorem padOrLimit_pix_zero {img : Img} {c : Nat}
    (h : ∀ y x, img.pix y x c = 0) (hn : Bool) (bc : Nat) :
    ∀ y x, (padOrLimit img hn bc).pix y x c = 0 := by
  intro y x
  unfold padOrLimit
  split
  · dsimp only
    split <;> simp [h]
  · split
    · dsimp only
      split <;> simp [h]
    · split <;> simp [h]

theorem resizeImg_pix_zero {img : Img} {c : Nat}
    (h : ∀ y x, img.pix y x c = 0) (ts : Nat × Nat) :
    ∀ y x, (resizeImg img ts).pix y x c = 0 := by
  intro y x
  exact resizeBandLinear_zero (fun i j => h i j) _ _ _ _ _ _

theorem padOrLimit_C_true (img : Img) : (padOrLimit img true 4).C = 4 := by
  unfold padOrLimit
  split
  · rfl
  · rename_i h1
    split
    · rename_i h2
      exact absurd h2.1 (by decide)
    · split
      · rfl
      · rename_i h2 h3
        simp only [Bool.true_eq, true_and] at h1
        omega

theorem padOrLimit_C_false (img : Img) : (padOrLimit img false 3).C = 3 := by
  unfold padOrLimit
  split
  · rename_i h1
    exact absurd h1.1 (by decide)
  · split
    · rfl
    · split
      · rfl
      · rename_i h1 h2 h3
        simp only [Bool.false_eq_true, not_false_eq_true, true_and] at h2
        omega

/-- When the reorder step runs (`source ≠ target`), the returned schema's
provenance fields. -/
theorem loadCore_reorder_fields (img0 : Img) (dtype : Dtype) (ts : Nat × Nat)
    (source : List String) (s2 : BandSchema) (hn : Bool)
    (hst : source ≠ s2.band_order) :
    (loadCore img0 dtype ts source s2 hn).2.source_band_indices =
        s2.band_order.map (fun b => (b, idxOf? source b)) ∧
      (loadCore img0 dtype ts source s2 hn).2.missing_bands =
        s2.band_order.filter (fun b => (idxOf? source b).isNone) ∧
      (loadCore img0 dtype ts source s2 hn).2.band_order = s2.band_order ∧
      (loadCore img0 dtype ts source s2 hn).2.source_band_order =
        s2.source_band_order := by
  simp [loadCore, hst, reorder_bands_to_standard, finalizeSchema]

/-- When the reorder step is skipped (`source = target`), the indices stay
empty and the missing list is the one decided by the path step. -/
theorem loadCore_skip_fields (img0 : Img) (dtype : Dtype) (ts : Nat × Nat)
    (source : List String) (s2 : BandSchema) (hn : Bool)
    (hst : source = s2.band_order) :
    (loadCore img0 dtype ts source s2 hn).2.source_band_indices = [] ∧
      (loadCore img0 dtype ts source s2 hn).2.missing_bands = s2.missing_bands ∧
      (loadCore img0 dtype ts source s2 hn).2.band_order = s2.band_order ∧
      (loadCore img0 dtype ts source s2 hn).2.source_band_order =
        s2.source_band_order := by
  simp [loadCore, hst, finalizeSchema]

/-- Target-band channels absent from the source come out all-zero. -/
theorem loadCore_pix_zero (img0 : Img) (dtype : Dtype) (ts : Nat × Nat)
    (source : List String) (s2 : BandSchema) (hn : Bool)
    (hst : source ≠ s2.band_order) {c : Nat} {b : String}
    (hc : s2.band_order.get? c = some b) (hb : b ∉ source) :
    ∀ y x, (loadCore img0 dtype ts source s2 hn).1.pix y x c = 0 := by
  have hz : ∀ y x,
      (reorder_bands_to_standard (limitChannels (tiffToChannelsLast img0)
        s2.band_count) source s2.band_order).1.pix y x c = 0 :=
    reorder_pix_zero hc hb
  intro y x
  simp only [loadCore]
  rw [if_pos hst]
  dsimp only
  split
  · exact padOrLimit_pix_zero
      (normalizeImg_pix_zero (resizeImg_pix_zero hz ts) dtype) _ _ y x
  · exact padOrLimit_pix_zero (normalizeImg_pix_zero hz dtype) _ _ y x

/-- The decided schema when `[R,G,B,NIR]` is declared explicitly. -/
def msResolvedSchema : BandSchema :=
  ⟨STANDARD_MULTISPECTRAL_BANDS, 4, STANDARD_MULTISPECTRAL_BANDS, "unknown",
    STANDARD_MULTISPECTRAL_BANDS, [], [], [], some "multispectral", none⟩

/-- The decided schema when `[R,G,B]` is declared and NIR is not required. -/
def rgbResolvedSchema : BandSchema :=
  ⟨STANDARD_RGB_BANDS, 3, STANDARD_RGB_BANDS, "unknown", STANDARD_RGB_BANDS,
    [], ["NIR"], [], some "rgb", none⟩

/-- The decided schema when `[R,G,B]` is declared and NIR is required. -/
def rgbFallbackResolvedSchema : BandSchema :=
  ⟨STANDARD_RGB_BANDS, 3, STANDARD_RGB_BANDS, "unknown", STANDARD_RGB_BANDS,
    [], ["NIR"], [], some "rgb_fallback", some "NIR required but not available"⟩

/-- The decided schema on the detection path for an `n`-band multispectral
file. -/
def msDetectSchema (n : Nat) : BandSchema :=
  ⟨STANDARD_MULTISPECTRAL_BANDS, 4, STANDARD_MULTISPECTRAL_BANDS, "uav",
    bandSrc n, [],
    STANDARD_MULTISPECTRAL_BANDS.filter (fun b => ! decide (b ∈ bandSrc n)),
    if (bandSrc n).filter (fun b => ! decide (b ∈ STANDARD_MULTISPECTRAL_BANDS)) ≠ []
      then (bandSrc n).filter (fun b => ! decide (b ∈ STANDARD_MULTISPECTRAL_BANDS))
      else [],
    some "multispectral", none⟩

theorem resolveSchema_ms (img : Img) (rn : Bool) :
    resolveSchema (some STANDARD_MULTISPECTRAL_BANDS) img rn =
      (STANDARD_MULTISPECTRAL_BANDS, msResolvedSchema, true) := rfl

theorem resolveSchema_rgb (img : Img) :
    resolveSchema (some STANDARD_RGB_BANDS) img false =
        (STANDARD_RGB_BANDS, rgbResolvedSchema, false) ∧
      resolveSchema (some STANDARD_RGB_BANDS) img true =
        (STANDARD_RGB_BANDS, rgbFallbackResolvedSchema, false) :=
  ⟨rfl, rfl⟩

theorem resolveSchema_detect_ms (img : Img) (rn : Bool) (h4 : 4 ≤ img.C)
    (h10 : img.C ≤ 10) (hH : img.C ≤ img.H) :
    resolveSchema none img rn = (bandSrc img.C, msDetectSchema img.C, true) := by
  have hdc : detect_band_count img = img.C := by
    unfold detect_band_count
    rw [if_neg (by omega), if_pos h10]
  have hds : schemaInit none img =
      ⟨STANDARD_MULTISPECTRAL_BANDS, 4, STANDARD_MULTISPECTRAL_BANDS, "uav",
        bandSrc img.C, [], [], [], none, none⟩ := by
    unfold schemaInit detect_band_schema
    rw [hdc, if_neg (by omega), if_pos h4]
  unfold resolveSchema
  rw [hds]
  rfl

/-- Every `resolveSchema` result has the shape
`(s1.source_band_order, pathSchema s1 … , has_nir)`. -/
theorem resolveSchema_parts (d : Option (List String)) (img : Img) (rn : Bool) :
    ∃ (s1 : BandSchema) (hn : Bool),
      resolveSchema d img rn =
        (s1.source_band_order, pathSchema s1 s1.source_band_order rn hn, hn) := by
  by_cases hv : (validate_band_schema (schemaInit d img).band_order).1
  · refine ⟨schemaInit d img,
      decide ("NIR" ∈ (schemaInit d img).band_order), ?_⟩
    simp [resolveSchema, hv]
  · refine ⟨fallbackSchema (schemaInit d img)
        (validate_band_schema (schemaInit d img).band_order).2,
      decide ("NIR" ∈ (fallbackSchema (schemaInit d img)
        (validate_band_schema (schemaInit d img).band_order).2).band_order), ?_⟩
    simp [resolveSchema, hv, fallbackSchema]

theorem pathSchema_fields (s : BandSchema) (source : List String) (rn hn : Bool) :
    (pathSchema s source rn hn).band_count = (if hn then 4 else 3) ∧
      (pathSchema s source rn hn).band_order =
        (if hn then STANDARD_MULTISPECTRAL_BANDS else STANDARD_RGB_BANDS) ∧
      (pathSchema s source rn hn).source_band_order = s.source_band_order := by
  cases hn <;> cases rn <;> simp [pathSchema]

theorem loadCore_band_order (img0 : Img) (dtype : Dtype) (ts : Nat × Nat)
    (source : List String) (s2 : BandSchema) (hn : Bool) :
    (loadCore img0 dtype ts source s2 hn).2.band_order = s2.band_order ∧
      (loadCore img0 dtype ts source s2 hn).2.source_band_order =
        s2.source_band_order := by
  by_cases hst : source ≠ s2.band_order
  · exact ⟨(loadCore_reorder_fields img0 dtype ts source s2 hn hst).2.2.1,
      (loadCore_reorder_fields img0 dtype ts source s2 hn hst).2.2.2⟩
  · rw [not_not] at hst
    exact ⟨(loadCore_skip_fields img0 dtype ts source s2 hn hst).2.2.1,
      (loadCore_skip_fields img0 dtype ts source s2 hn hst).2.2.2⟩

theorem loadCore_band_count (img0 : Img) (dtype : Dtype) (ts : Nat × Nat)
    (source : List String) (s2 : BandSchema) (hn : Bool)
    (hbc : s2.band_count = if hn then 4 else 3) :
    (loadCore img0 dtype ts source s2 hn).2.band_count = (if hn then 4 else 3) := by
  by_cases hst : source ≠ s2.band_order
  · simp only [loadCore]
    rw [if_pos hst]
    dsimp only
    simp only [finalizeSchema]
    rw [hbc]
    cases hn <;> simp [padOrLimit_C_true, padOrLimit_C_false]
  · simp only [loadCore]
    rw [if_neg hst]
    dsimp only
    simp only [finalizeSchema]
    rw [hbc]
    cases hn <;> simp [padOrLimit_C_true, padOrLimit_C_false]

/-! ## Loader claims -/

/-- Concrete images for closed loader evaluations. -/
def imgC5 : Img := ⟨4, 4, 3, fun _ _ _ => 1⟩

def imgC6 : Img := ⟨4, 4, 4, fun _ _ _ => 1⟩

def imgC8 : Img := ⟨4, 4, 2, fun _ _ _ => 1⟩

def imgC1w : Img := ⟨4, 4, 4, fun _ _ _ => 3⟩

def imgRo : Img := ⟨2, 2, 1, fun _ _ _ => 5⟩

/-- C5 evaluated at the failing input: a declared band order containing the
unrecognized name "X" sets `fallback_reason` and `processing_path =
"rgb_fallback"` during validation, but (with `require_nir = False`) the
RGB-only branch then unconditionally overwrites `processing_path` to
`"rgb"`, contradicting the claim and the loader's own "Forcing RGB fallback
path" warning; with `require_nir = True` the path is re-set to
`"rgb_fallback"`. -/
theorem C5_unrecognized_band_overwritten_path :
    (load_multispectral_image imgC5 .u8 (4, 4) (some ["R", "G", "B", "X"])
        false).2.fallback_reason = some "Invalid band names: X" ∧
      (load_multispectral_image imgC5 .u8 (4, 4) (some ["R", "G", "B", "X"])
        false).2.processing_path = some "rgb" ∧
      (some "rgb" : Option String) ≠ some "rgb_fallback" ∧
      (load_multispectral_image imgC5 .u8 (4, 4) (some ["R", "G", "B", "X"])
        true).2.processing_path = some "rgb_fallback" :=
  ⟨rfl, rfl, by decide, rfl⟩

/-- Counterexample for C6: with the declared order equal to the canonical
target `[R,G,B,NIR]`, the reorder step is skipped and the returned
`source_band_indices` is empty — "R" is not mapped to position 0, so the
mapping is not the identity (while `missing_bands` is indeed empty). -/
theorem C6_counterexample :
    (load_multispectral_image imgC6 .u8 (4, 4)
        (some ["R", "G", "B", "NIR"]) false).2.source_band_indices = [] ∧
      List.lookup "R" (load_multispectral_image imgC6 .u8 (4, 4)
        (some ["R", "G", "B", "NIR"]) false).2.source_band_indices = none ∧
      (load_multispectral_image imgC6 .u8 (4, 4)
        (some ["R", "G", "B", "NIR"]) false).2.missing_bands = [] :=
  ⟨rfl, rfl, rfl⟩

/-- C6 (amended): when the source band order already equals the target
order the reorder step is skipped, so `source_band_indices` is returned as
the empty mapping (not the identity); `missing_bands` is `[]` on the
multispectral path and `["NIR"]` on the rgb path. -/
theorem C6_source_equals_target (img : Img) (dtype : Dtype) (ts : Nat × Nat)
    (rn : Bool) :
    ((load_multispectral_image img dtype ts (some STANDARD_MULTISPECTRAL_BANDS)
          rn).2.source_band_indices = [] ∧
        (load_multispectral_image img dtype ts (some STANDARD_MULTISPECTRAL_BANDS)
          rn).2.missing_bands = []) ∧
      ((load_multispectral_image img dtype ts (some STANDARD_RGB_BANDS)
          rn).2.source_band_indices = [] ∧
        (load_multispectral_image img dtype ts (some STANDARD_RGB_BANDS)
          rn).2.missing_bands = ["NIR"]) := by
  have hload : ∀ (d : Option (List String)),
      load_multispectral_image img dtype ts d rn =
        loadCore img dtype ts (resolveSchema d img rn).1
          (resolveSchema d img rn).2.1 (resolveSchema d img rn).2.2 :=
    fun d => rfl
  constructor
  · rw [hload, resolveSchema_ms]
    obtain ⟨h1, h2, _, _⟩ := loadCore_skip_fields img dtype ts
      STANDARD_MULTISPECTRAL_BANDS msResolvedSchema true rfl
    exact ⟨h1, h2⟩
  · cases rn with
    | false =>
      rw [hload, (resolveSchema_rgb img).1]
      obtain ⟨h1, h2, _, _⟩ := loadCore_skip_fields img dtype ts
        STANDARD_RGB_BANDS rgbResolvedSchema false rfl
      exact ⟨h1, h2⟩
    | true =>
      rw [hload, (resolveSchema_rgb img).2]
      obtain ⟨h1, h2, _, _⟩ := loadCore_skip_fields img dtype ts
        STANDARD_RGB_BANDS rgbFallbackResolvedSchema false rfl
      exact ⟨h1, h2⟩

/-- Counterexample for C8: declaring `["NIR","R"]` ends with `band_count = 4`
(the padded multispectral channel count) while `bands` keeps the declared
2-element list, so `band_count ≠ len(bands)`. -/
theorem C8_counterexample :
    (load_multispectral_image imgC8 .u8 (4, 4) (some ["NIR", "R"])
        false).2.band_count = 4 ∧
      (load_multispectral_image imgC8 .u8 (4, 4) (some ["NIR", "R"])
        false).2.bands.length = 2 ∧
      (4 : Nat) ≠ 2 :=
  ⟨rfl, rfl, by decide⟩

/-- C8 (amended): for every load along the modelled route, `band_count`
equals the length of the final `band_order` (not of `bands`, which keeps
the declared list); and whenever the reorder step runs (source order ≠
final target order), every band of the final order is accounted for in
exactly one of {present (mapped to a source index), missing}. -/
theorem C8_schema_accounting (img : Img) (dtype : Dtype) (ts : Nat × Nat)
    (declared : Option (List String)) (rn : Bool) :
    (load_multispectral_image img dtype ts declared rn).2.band_count =
        (load_multispectral_image img dtype ts declared rn).2.band_order.length ∧
      ((load_multispectral_image img dtype ts declared rn).2.source_band_order ≠
          (load_multispectral_image img dtype ts declared rn).2.band_order →
        ∀ b ∈ (load_multispectral_image img dtype ts declared rn).2.band_order,
          ((∃ i, List.lookup b (load_multispectral_image img dtype ts declared
              rn).2.source_band_indices = some (some i)) ∧
            b ∉ (load_multispectral_image img dtype ts declared rn).2.missing_bands) ∨
          (List.lookup b (load_multispectral_image img dtype ts declared
              rn).2.source_band_indices = some none ∧
            b ∈ (load_multispectral_image img dtype ts declared rn).2.missing_bands)) := by
  obtain ⟨s1, hn, hr⟩ := resolveSchema_parts declared img rn
  have hload : load_multispectral_image img dtype ts declared rn =
      loadCore img dtype ts (resolveSchema declared img rn).1
        (resolveSchema declared img rn).2.1 (resolveSchema declared img rn).2.2 := rfl
  rw [hload, hr]
  dsimp only
  obtain ⟨hbc, hbo, hsrc⟩ := pathSchema_fields s1 s1.source_band_order rn hn
  constructor
  · rw [loadCore_band_count img dtype ts _ _ hn hbc,
      (loadCore_band_order img dtype ts _ _ hn).1, hbo]
    cases hn <;> decide
  · intro hneq b hb
    rw [(loadCore_band_order img dtype ts _ _ hn).2, hsrc,
      (loadCore_band_order img dtype ts _ _ hn).1] at hneq
    obtain ⟨hidx, hmiss, hbo2, _⟩ := loadCore_reorder_fields img dtype ts _ _ hn hneq
    rw [hbo2] at hb
    rw [hidx, hmiss, lookup_map_self (fun b => idxOf? s1.source_band_order b) hb]
    cases hio : idxOf? s1.source_band_order b with
    | some i =>
      left
      refine ⟨⟨i, rfl⟩, ?_⟩
      intro hmem
      rw [List.mem_filter] at hmem
      rw [hio] at hmem
      simp at hmem
    | none =>
      right
      refine ⟨rfl, ?_⟩
      rw [List.mem_filter]
      refine ⟨hb, ?_⟩
      rw [hio]
      rfl

/-- Witness for C8 at a concrete input whose source order differs from the
target order. -/
theorem C8_schema_accounting_witness :
    ((load_multispectral_image imgC8 .u8 (4, 4) (some ["NIR", "R"])
          false).2.source_band_order ≠
        (load_multispectral_image imgC8 .u8 (4, 4) (some ["NIR", "R"])
          false).2.band_order) ∧
      (∀ b ∈ (load_multispectral_image imgC8 .u8 (4, 4) (some ["NIR", "R"])
          false).2.band_order,
        ((∃ i, List.lookup b (load_multispectral_image imgC8 .u8 (4, 4)
            (some ["NIR", "R"]) false).2.source_band_indices = some (some i)) ∧
          b ∉ (load_multispectral_image imgC8 .u8 (4, 4)
            (some ["NIR", "R"]) false).2.missing_bands) ∨
        (List.lookup b (load_multispectral_image imgC8 .u8 (4, 4)
            (some ["NIR", "R"]) false).2.source_band_indices = some none ∧
          b ∈ (load_multispectral_image imgC8 .u8 (4, 4)
            (some ["NIR", "R"]) false).2.missing_bands)) := by
  refine ⟨by decide, ?_⟩
  exact (C8_schema_accounting imgC8 .u8 (4, 4) (some ["NIR", "R"]) false).2
    (by decide)

/-- C1: (a) in `_reorder_bands_to_standard`, every target band absent from
the source order yields an all-zero output channel — the channel's value is
the constant 0, independent of every other channel — and is listed in
`missing_bands`; (b) on the detection path for a multispectral file whose
source order is the placeholder `Band_i` list (hence lacks NIR), the loaded
output's NIR channel (index 3) is all-zero and "NIR" is in `missing_bands`. -/
theorem C1_missing_bands_zero_filled :
    (∀ (img : Img) (source target : List String) (c : Nat) (b : String),
        target.get? c = some b → b ∉ source →
        (∀ y x, (reorder_bands_to_standard img source target).1.pix y x c = 0) ∧
          b ∈ (reorder_bands_to_standard img source target).2.2) ∧
    (∀ (img : Img) (dtype : Dtype) (ts : Nat × Nat) (rn : Bool),
        4 ≤ img.C → img.C ≤ 10 → img.C ≤ img.H →
        "NIR" ∈ (load_multispectral_image img dtype ts none rn).2.missing_bands ∧
          ∀ y x, (load_multispectral_image img dtype ts none rn).1.pix y x 3 = 0) := by
  constructor
  · intro img source target c b hc hb
    refine ⟨reorder_pix_zero hc hb, ?_⟩
    show b ∈ target.filter fun b => (idxOf? source b).isNone
    rw [List.mem_filter]
    refine ⟨List.get?_mem hc, ?_⟩
    rw [idxOf?_eq_none_iff.mpr hb]
    rfl
  · intro img dtype ts rn h4 h10 hH
    have hload : load_multispectral_image img dtype ts none rn =
        loadCore img dtype ts (resolveSchema none img rn).1
          (resolveSchema none img rn).2.1 (resolveSchema none img rn).2.2 := rfl
    rw [hload, resolveSchema_detect_ms img rn h4 h10 hH]
    dsimp only
    have hnotmem : "NIR" ∉ bandSrc img.C := not_mem_bandNames (by decide) _
    have hst : bandSrc img.C ≠ (msDetectSchema img.C).band_order := by
      intro he
      have hmem : "NIR" ∈ bandSrc img.C := by
        rw [he]
        show "NIR" ∈ STANDARD_MULTISPECTRAL_BANDS
        decide
      exact hnotmem hmem
    constructor
    · rw [(loadCore_reorder_fields img dtype ts _ _ true hst).2.1]
      rw [List.mem_filter]
      refine ⟨?_, ?_⟩
      · show "NIR" ∈ STANDARD_MULTISPECTRAL_BANDS
        decide
      · rw [idxOf?_eq_none_iff.mpr hnotmem]
        rfl
    · exact loadCore_pix_zero img dtype ts _ _ true hst rfl hnotmem

/-- Witness for C1 at concrete inputs: a 2×2 single-channel image reordered
from `["R"]` to `["G"]`, and a 4-band detection-path load. -/
theorem C1_missing_bands_zero_filled_witness :
    ((["G"].get? 0 = some "G") ∧ "G" ∉ ["R"] ∧
        (∀ y x, (reorder_bands_to_standard imgRo ["R"] ["G"]).1.pix y x 0 = 0) ∧
        "G" ∈ (reorder_bands_to_standard imgRo ["R"] ["G"]).2.2) ∧
      (4 ≤ imgC1w.C ∧ imgC1w.C ≤ 10 ∧ imgC1w.C ≤ imgC1w.H ∧
        "NIR" ∈ (load_multispectral_image imgC1w .u8 (4, 4) none
          false).2.missing_bands ∧
        ∀ y x, (load_multispectral_image imgC1w .u8 (4, 4) none
          false).1.pix y x 3 = 0) := by
  constructor
  · have h := C1_missing_bands_zero_filled.1 imgRo ["R"] ["G"] 0 "G" rfl (by decide)
    exact ⟨rfl, by decide, h.1, h.2⟩
  · have h := C1_missing_bands_zero_filled.2 imgC1w .u8 (4, 4) false
      (by decide) (by decide) (by decide)
    exact ⟨by decide, by decide, by decide, h.1, h.2⟩

/-- The uniform image whose cells all have severity ≈ 0.3012, which rounds
to exactly 0.30. -/
def stressImg : Img :=
  ⟨10, 10, 3, fun _ _ c => if c = 0 then 100 else if c = 1 then 166 else 0⟩

set_option maxRecDepth 1000000 in
/-- Counterexample for C10: on `stressImg` every cell's severity is
2000000001/6640000002 ≈ 0.3012 > 0.3, so zones are emitted, but the
recorded severity `round(…, 2)` equals 0.30 exactly — not strictly greater
than 0.3. -/
theorem C10_counterexample :
    ∃ z ∈ (calculate_ndvi stressImg).stress_zones, ¬ (3/10 < z.severity) := by
  with_unfolding_all decide

/-- Witness for C10 at a concrete 10×10 image. -/
theorem C10_stress_zone_invariants_witness :
    10 ≤ (uniformImg 10 10 2).H ∧ 10 ≤ (uniformImg 10 10 2).W ∧
      ((calculate_ndvi (uniformImg 10 10 2)).stress_zones.length ≤ 100 ∧
        ∀ z ∈ (calculate_ndvi (uniformImg 10 10 2)).stress_zones,
          z.x ≤ 9 ∧ z.y ≤ 9 ∧
            3/10 ≤ z.severity ∧ z.severity ≤ 1 ∧
            ∃ s : ℚ, 3/10 < s ∧ s ≤ 1 ∧ z.severity = roundTo 2 s) := by
  refine ⟨by decide, by decide, ?_⟩
  exact C10_stress_zone_invariants (uniformImg 10 10 2) (by decide) (by decide)

end CropView
